import Mathlib

/-!
# Shallow embedding of the `python-zinvolt` client

This file embeds the data model (`src/zinvolt/models.py`) and the API client
(`src/zinvolt/zinvolt.py`) of the `python-zinvolt` repository, and proves the
frozen claims about them.

Modelling conventions:
* JSON payloads are modelled by the inductive type `Json`.  Response bodies are
  carried as already-parsed `Json` values (the client only ever inspects the
  parsed value of the body text).  JSON numbers are modelled as integers: no
  claim depends on a fractional value, and no arithmetic is performed on any
  decoded number.
* The `aiohttp` session is modelled by `Session`, which records whether the
  client itself created it (`createdByClient`) and whether it has been closed.
* The network is modelled by a list of pending `HttpResponse`s; each call to
  `request_` (the embedding of `ZinvoltClient._request`) consumes at most one
  of them and records the single `HttpRequest` it issued.  A response carries
  the time until `session.request` returns (`headersTime`) and the additional
  time that `response.text()` takes (`bodyTime`); in the source the
  `asyncio.timeout` scope wraps only the `session.request` await, the
  `response.text()` await sits outside of it.
* Exceptions are modelled by `ZError` together with `Except`.
-/

set_option autoImplicit false

namespace Zinvolt

/-- A parsed JSON value. -/
inductive Json where
  | null
  | bool (b : Bool)
  | num (n : Int)
  | str (s : String)
  | arr (elems : List Json)
  | obj (fields : List (String × Json))

/-- Exceptions that the embedded client can raise. -/
inductive ZError where
  /-- `TimeoutError` from the `asyncio.timeout` scope. -/
  | timeoutError
  /-- A transport-level failure (connection refused, DNS, ...). -/
  | transportError
  /-- A `mashumaro`/`orjson` decoding failure, tagged with the wire key or
  description of what failed to decode. -/
  | decodeError (what : String)
  /-- `KeyError` from a plain dictionary lookup. -/
  | keyError (key : String)
  /-- `AttributeError`, tagged with the missing attribute name. -/
  | attributeError (name : String)
deriving DecidableEq, Repr

/-- `zinvolt.zinvolt.VERSION`. -/
def VERSION : String := "1"

/-- `zinvolt.zinvolt.HOST`. -/
def HOST : String := "app.zinvolt.com"

/-- `aiohttp.hdrs.METH_GET`. -/
def METH_GET : String := "GET"

/-- `aiohttp.hdrs.METH_POST`. -/
def METH_POST : String := "POST"

/-- `aiohttp.hdrs.METH_PUT`. -/
def METH_PUT : String := "PUT"

/-- An `aiohttp.ClientSession`, reduced to the two facts the claims are about:
who created it and whether it has been closed. -/
structure Session where
  createdByClient : Bool
  closed : Bool
deriving DecidableEq, Repr

/-- The mutable fields of the `ZinvoltClient` dataclass.  `close_session`
embeds the `_close_session` field of the source. -/
structure ClientState where
  token : Option String
  session : Option Session
  request_timeout : Nat
  close_session : Bool
deriving DecidableEq, Repr

/-- Construction of a `ZinvoltClient` by a caller: the dataclass defaults give
`request_timeout = 10` and `_close_session = False`; a caller-supplied session
is marked `createdByClient = false` and starts out open. -/
def mkClient (token : Option String) (callerSession : Bool) : ClientState :=
  { token := token
    session := if callerSession then some ⟨false, false⟩ else none
    request_timeout := 10
    close_session := false }

/-- One HTTP request as put on the wire. -/
structure HttpRequest where
  method : String
  url : String
  headers : List (String × String)
  body : Option Json

/-- One HTTP response as delivered by the network.  `headersTime` is the time
until the `session.request` await returns, `bodyTime` the additional time the
`response.text()` await takes. -/
structure HttpResponse where
  status : Nat
  headersTime : Nat
  bodyTime : Nat
  body : Json

/-- Result of running one client operation: its outcome, the client state
afterwards, the requests put on the wire (in order), and the responses the
network still holds. -/
structure OpResult (α : Type) where
  outcome : Except ZError α
  state : ClientState
  issued : List HttpRequest
  rest : List HttpResponse

/-- The outcome/state/issued part of an `OpResult`: everything the caller and
the server can observe of a finished call. -/
def OpResult.visible {α : Type} (r : OpResult α) :
    Except ZError α × ClientState × List HttpRequest :=
  (r.outcome, r.state, r.issued)

/-- Post-processing of a raw response body, leaving the state-and-wire part of
the result untouched. -/
def OpResult.decodeWith {α : Type} (r : OpResult Json)
    (f : Json → Except ZError α) : OpResult α :=
  ⟨r.outcome.bind f, r.state, r.issued, r.rest⟩

/-- First match in an association list; Python dictionaries hold each key at
most once, so this is the dictionary lookup. -/
def lookupKey : List (String × Json) → String → Option Json
  | [], _ => none
  | (k, v) :: rest, key => if k = key then some v else lookupKey rest key

/-- The `Authorization` part of `base_headers`: the source guards it with
`if self.token:`, so both a missing token and an empty-string token (both
falsy in Python) omit the header. -/
def authHeaders : Option String → List (String × String)
  | some t => if t = "" then [] else [("Authorization", "Bearer " ++ t)]
  | none => []

/-- `base_headers` of `_request`: the versioned user agent, plus the bearer
token when one is set. -/
def baseHeaders (token : Option String) : List (String × String) :=
  ("User-Agent", "python-zinvolt/" ++ VERSION) :: authHeaders token

/-- Python's `dict | dict` merge on ordered key/value lists: keys of `base`
keep their position (values overridden by `extra`), then the keys only in
`extra` follow in their order. -/
def mergeDicts (base extra : List (String × String)) : List (String × String) :=
  base.map (fun kv =>
    (kv.1, (((extra.find? (fun kv2 => kv2.1 = kv.1)).map Prod.snd).getD kv.2))) ++
  extra.filter (fun kv2 => ¬ base.any (fun kv => kv.1 = kv2.1))

/-- The URL built by `_request`:
`URL.build(host=HOST, scheme="https").joinpath(f"api/public/v2/{uri}")`. -/
def buildUrl (uri : String) : String :=
  "https://" ++ HOST ++ "/api/public/v2/" ++ uri

/-- The state update performed by `_request` before issuing the call: when no
session exists the client creates one and takes ownership of it. -/
def requestState (st : ClientState) : ClientState :=
  if st.session.isNone then
    { st with session := some ⟨true, false⟩, close_session := true }
  else st

/-- The request `_request` puts on the wire. -/
def mkReq (st : ClientState) (uri method : String) (data : Option Json)
    (headers : List (String × String)) : HttpRequest :=
  ⟨method, buildUrl uri, mergeDicts (baseHeaders st.token) headers, data⟩

/-- Embedding of `ZinvoltClient._request`.  The `asyncio.timeout` scope wraps
only the `session.request` await, so the call raises `TimeoutError` exactly
when `headersTime` exceeds `request_timeout`; the `response.text()` await is
outside the scope and its duration is never checked.  An empty transport
models a network-level failure of `session.request`. -/
def request_ (st : ClientState) (transport : List HttpResponse)
    (uri : String) (method : String) (data : Option Json)
    (headers : List (String × String)) : OpResult Json :=
  let req := mkReq st uri method data headers
  let st' := requestState st
  match transport with
  | [] => ⟨.error .transportError, st', [req], []⟩
  | r :: rest =>
      if st'.request_timeout < r.headersTime then
        ⟨.error .timeoutError, st', [req], rest⟩
      else
        ⟨.ok r.body, st', [req], rest⟩

/-- Embedding of `ZinvoltClient._get`. -/
def get_ (st : ClientState) (transport : List HttpResponse) (uri : String) :
    OpResult Json :=
  request_ st transport uri METH_GET none []

/-- Embedding of `ZinvoltClient._put`. -/
def put_ (st : ClientState) (transport : List HttpResponse) (uri : String)
    (data : Json) : OpResult Json :=
  request_ st transport uri METH_PUT (some data) []

/-- Embedding of `ZinvoltClient._post`. -/
def post_ (st : ClientState) (transport : List HttpResponse) (uri : String)
    (data : Json) : OpResult Json :=
  request_ st transport uri METH_POST (some data) []

/-! ## Data model (`src/zinvolt/models.py`) -/

/-- `OnlineStatus` string enum. -/
inductive OnlineStatus where
  | ONLINE
  | OFFLINE
deriving DecidableEq, Repr

/-- Decoding an `OnlineStatus` wire literal, as `StrEnum` value lookup does:
any literal other than the two members fails. -/
def OnlineStatus.fromString (s : String) : Option OnlineStatus :=
  if s = "ONLINE" then some .ONLINE
  else if s = "OFFLINE" then some .OFFLINE
  else none

/-- `SmartMode` string enum.  The source declares exactly the three members
`DYNAMIC`, `CHARGED` and `PERFORMANCE`; there is no `CUSTOM` member. -/
inductive SmartMode where
  | DYNAMIC
  | CHARGED
  | PERFORMANCE
deriving DecidableEq, Repr

/-- The wire value of a `SmartMode` member (its `StrEnum` string value). -/
def SmartMode.toWire : SmartMode → String
  | .DYNAMIC => "DYNAMIC"
  | .CHARGED => "CHARGED"
  | .PERFORMANCE => "PERFORMANCE"

/-- Decoding a `SmartMode` wire literal, as `StrEnum` value lookup does: any
literal other than the three declared members fails — including `"CUSTOM"`. -/
def SmartMode.fromString (s : String) : Option SmartMode :=
  if s = "DYNAMIC" then some .DYNAMIC
  else if s = "CHARGED" then some .CHARGED
  else if s = "PERFORMANCE" then some .PERFORMANCE
  else none

/-- Attribute lookup `SmartMode.<name>` on the enum class: only the three
declared members exist; any other attribute access (in particular
`SmartMode.CUSTOM`, which `set_smart_mode` performs) raises
`AttributeError`. -/
def SmartMode.getattr (name : String) : Except ZError SmartMode :=
  if name = "DYNAMIC" then .ok .DYNAMIC
  else if name = "CHARGED" then .ok .CHARGED
  else if name = "PERFORMANCE" then .ok .PERFORMANCE
  else .error (.attributeError name)

/-- Required string field under wire key `key`. -/
def getStrField (j : Json) (key : String) : Except ZError String :=
  match j with
  | .obj kvs =>
      match lookupKey kvs key with
      | some (.str s) => .ok s
      | _ => .error (.decodeError key)
  | _ => .error (.decodeError key)

/-- Required numeric field under wire key `key` (used for `int` and `float`
fields alike; see the number-modelling convention in the file header). -/
def getNumField (j : Json) (key : String) : Except ZError Int :=
  match j with
  | .obj kvs =>
      match lookupKey kvs key with
      | some (.num n) => .ok n
      | _ => .error (.decodeError key)
  | _ => .error (.decodeError key)

/-- Required boolean field under wire key `key`. -/
def getBoolField (j : Json) (key : String) : Except ZError Bool :=
  match j with
  | .obj kvs =>
      match lookupKey kvs key with
      | some (.bool b) => .ok b
      | _ => .error (.decodeError key)
  | _ => .error (.decodeError key)

/-- Required object-valued field under wire key `key` (for nested records). -/
def getField (j : Json) (key : String) : Except ZError Json :=
  match j with
  | .obj kvs =>
      match lookupKey kvs key with
      | some v => .ok v
      | none => .error (.decodeError key)
  | _ => .error (.decodeError key)

/-- Required `OnlineStatus` field: a string literal that must be one of the
enum members — no default substitution for an unknown literal. -/
def getOnlineStatusField (j : Json) (key : String) : Except ZError OnlineStatus := do
  let s ← getStrField j key
  match OnlineStatus.fromString s with
  | some v => .ok v
  | none => .error (.decodeError key)

/-- Required `SmartMode` field: a string literal that must be one of the
enum's declared members — no default substitution for an unknown literal. -/
def getSmartModeField (j : Json) (key : String) : Except ZError SmartMode := do
  let s ← getStrField j key
  match SmartMode.fromString s with
  | some v => .ok v
  | none => .error (.decodeError key)

/-- `Battery` record: `identifier` is aliased to wire key `id`. -/
structure Battery where
  identifier : String
  name : String
  serial_number : String
deriving DecidableEq, Repr

/-- `Battery.from_json` (mashumaro decode with the declared aliases). -/
def Battery.from_json (j : Json) : Except ZError Battery := do
  let identifier ← getStrField j "id"
  let name ← getStrField j "name"
  let serial_number ← getStrField j "serial_number"
  .ok ⟨identifier, name, serial_number⟩

/-- `BatteryListResponse` record. -/
structure BatteryListResponse where
  batteries : List Battery
deriving DecidableEq, Repr

/-- `PhotovoltaicData` record. -/
structure PhotovoltaicData where
  name : String
  power : Int
deriving DecidableEq, Repr

/-- `PhotovoltaicData` decode. -/
def PhotovoltaicData.from_json (j : Json) : Except ZError PhotovoltaicData := do
  let name ← getStrField j "name"
  let power ← getNumField j "power"
  .ok ⟨name, power⟩

/-- `GlobalSettings` record with its wire aliases. -/
structure GlobalSettings where
  max_output : Int
  max_output_limit : Int
  max_output_unlocked : Bool
  battery_upper_threshold : Int
  battery_lower_threshold : Int
  maximum_charge_power : Int
  standby_time : Int
deriving DecidableEq, Repr

/-- `GlobalSettings.from_json`. -/
def GlobalSettings.from_json (j : Json) : Except ZError GlobalSettings := do
  let max_output ← getNumField j "maxOutput"
  let max_output_limit ← getNumField j "maxOutputLimit"
  let max_output_unlocked ← getBoolField j "maxOutputUnlocked"
  let battery_upper_threshold ← getNumField j "batHighCap"
  let battery_lower_threshold ← getNumField j "batUseCap"
  let maximum_charge_power ← getNumField j "maxChargePower"
  let standby_time ← getNumField j "standbyTime"
  .ok ⟨max_output, max_output_limit, max_output_unlocked, battery_upper_threshold,
    battery_lower_threshold, maximum_charge_power, standby_time⟩

/-- `CurrentPower` record with its wire aliases. -/
structure CurrentPower where
  state_of_charge : Int
  output_current : Int
  max_power : Int
  on_grid : Bool
  photovoltaic_power : Int
  power_socket_output : Int
  is_dormant : Bool
  online_status : OnlineStatus
deriving DecidableEq, Repr

/-- `CurrentPower` decode. -/
def CurrentPower.from_json (j : Json) : Except ZError CurrentPower := do
  let state_of_charge ← getNumField j "soc"
  let output_current ← getNumField j "coc"
  let max_power ← getNumField j "smp"
  let on_grid ← getBoolField j "onGrid"
  let photovoltaic_power ← getNumField j "ppv"
  let power_socket_output ← getNumField j "pso"
  let is_dormant ← getBoolField j "isDormancy"
  let online_status ← getOnlineStatusField j "onlineStatus"
  .ok ⟨state_of_charge, output_current, max_power, on_grid, photovoltaic_power,
    power_socket_output, is_dormant, online_status⟩

/-- `BatteryState` record with its wire aliases. -/
structure BatteryState where
  serial_number : String
  name : String
  online_status : OnlineStatus
  current_power : CurrentPower
  smart_mode : SmartMode
  global_settings : GlobalSettings
deriving DecidableEq, Repr

/-- `BatteryState.from_json`. -/
def BatteryState.from_json (j : Json) : Except ZError BatteryState := do
  let serial_number ← getStrField j "sn"
  let name ← getStrField j "name"
  let online_status ← getOnlineStatusField j "onlineStatus"
  let current_power ← (getField j "currentPower").bind CurrentPower.from_json
  let smart_mode ← getSmartModeField j "smartMode"
  let global_settings ← (getField j "globalSettings").bind GlobalSettings.from_json
  .ok ⟨serial_number, name, online_status, current_power, smart_mode, global_settings⟩

/-- `OnlineStatusResponse` record with its wire aliases. -/
structure OnlineStatusResponse where
  serial_number : String
  online_status : OnlineStatus
deriving DecidableEq, Repr

/-- `OnlineStatusResponse.from_json`. -/
def OnlineStatusResponse.from_json (j : Json) : Except ZError OnlineStatusResponse := do
  let serial_number ← getStrField j "sn"
  let online_status ← getOnlineStatusField j "onlineStatus"
  .ok ⟨serial_number, online_status⟩

/-- `BatteryListResponse.from_json`: the `batteries` field is a JSON array
decoded element by element in source order. -/
def decodeList {α : Type} (dec : Json → Except ZError α) :
    List Json → Except ZError (List α)
  | [] => .ok []
  | x :: xs => do
      let a ← dec x
      let as ← decodeList dec xs
      .ok (a :: as)

/-- Decoding a value that must be a bare JSON array (`ORJSONDecoder(list[T])`
and list-typed fields): each element is decoded in order. -/
def decodeArr {α : Type} (dec : Json → Except ZError α) (j : Json) :
    Except ZError (List α) :=
  match j with
  | .arr xs => decodeList dec xs
  | _ => .error (.decodeError "list")

/-- `BatteryListResponse.from_json`. -/
def BatteryListResponse.from_json (j : Json) : Except ZError BatteryListResponse := do
  let bs ← (getField j "batteries").bind (decodeArr Battery.from_json)
  .ok ⟨bs⟩

/-- Modelled from the spec: the `CustomMode` record is imported by
`zinvolt.py` but absent from `src/zinvolt/models.py` (only its callers and
tests exist under `src/`).  Per spec §3 it is an opaque vendor-defined record
carrying an identifier and a name ("id, name, and mode parameters"); the
vendor-defined mode parameters are not specified and are not modelled. -/
structure CustomMode where
  id : String
  name : String
deriving DecidableEq, Repr

/-- Modelled from the spec: decode of one `CustomMode` (required `id` and
`name` fields; decoding fails on missing required fields, per spec §3). -/
def CustomMode.from_json (j : Json) : Except ZError CustomMode := do
  let id ← getStrField j "id"
  let name ← getStrField j "name"
  .ok ⟨id, name⟩

/-- Modelled from the spec: the `BatteryUnit` record is imported by
`zinvolt.py` but absent from `src/zinvolt/models.py`.  Per spec §3 it is
"(unit-level identity/metrics)" with vendor-defined fields; it is modelled as
the raw decoded JSON object. -/
structure BatteryUnit where
  raw : Json

/-- Modelled from the spec: decode of a `BatteryUnit` — a JSON object whose
vendor-defined fields are kept raw. -/
def BatteryUnit.from_json (j : Json) : Except ZError BatteryUnit :=
  match j with
  | .obj kvs => .ok ⟨.obj kvs⟩
  | _ => .error (.decodeError "BatteryUnit")

/-! ## Client operations (`src/zinvolt/zinvolt.py`) -/

/-- Embedding of `ZinvoltClient.login`: one POST to `login` with the
credentials as JSON body, then `orjson.loads(result)["token"]` is stored as
the token and returned.  A body that is not a JSON object raises a
`TypeError`-like failure, a missing `"token"` key raises `KeyError`; the
stored token is modelled as a string (no claim exercises a non-string
`"token"` value, which Python would store unchecked). -/
def login (st : ClientState) (transport : List HttpResponse)
    (email password : String) : OpResult String :=
  let r := post_ st transport "login"
    (.obj [("email", .str email), ("password", .str password)])
  match r.outcome with
  | .error e => ⟨.error e, r.state, r.issued, r.rest⟩
  | .ok body =>
      match body with
      | .obj kvs =>
          match lookupKey kvs "token" with
          | some (.str t) =>
              ⟨.ok t, { r.state with token := some t }, r.issued, r.rest⟩
          | some _ => ⟨.error (.decodeError "token"), r.state, r.issued, r.rest⟩
          | none => ⟨.error (.keyError "token"), r.state, r.issued, r.rest⟩
      | _ => ⟨.error (.decodeError "login"), r.state, r.issued, r.rest⟩

/-- Embedding of `ZinvoltClient.get_batteries`. -/
def get_batteries (st : ClientState) (transport : List HttpResponse) :
    OpResult (List Battery) :=
  (get_ st transport "system/batteries").decodeWith
    (fun body => (BatteryListResponse.from_json body).map (fun resp => resp.batteries))

/-- Embedding of `ZinvoltClient.get_battery_status`. -/
def get_battery_status (st : ClientState) (transport : List HttpResponse)
    (battery_id : String) : OpResult BatteryState :=
  (get_ st transport ("system/" ++ battery_id ++ "/basic/current-state")).decodeWith
    BatteryState.from_json

/-- Embedding of `ZinvoltClient.is_battery_online`: decode an
`OnlineStatusResponse` and compare its `online_status` with
`OnlineStatus.ONLINE`. -/
def is_battery_online (st : ClientState) (transport : List HttpResponse)
    (battery_id : String) : OpResult Bool :=
  (get_ st transport ("system/" ++ battery_id ++ "/basic/online-status")).decodeWith
    (fun body => (OnlineStatusResponse.from_json body).map
      (fun resp => resp.online_status = OnlineStatus.ONLINE))

/-- Embedding of `ZinvoltClient.get_photovoltaic_data`:
`ORJSONDecoder(list[PhotovoltaicData])` decodes a bare JSON array. -/
def get_photovoltaic_data (st : ClientState) (transport : List HttpResponse)
    (battery_id : String) : OpResult (List PhotovoltaicData) :=
  (get_ st transport ("system/" ++ battery_id ++ "/basic/pv-data")).decodeWith
    (decodeArr PhotovoltaicData.from_json)

/-- Embedding of `ZinvoltClient.get_global_settings`. -/
def get_global_settings (st : ClientState) (transport : List HttpResponse)
    (battery_id : String) : OpResult GlobalSettings :=
  (get_ st transport ("system/" ++ battery_id ++ "/configuration/global-settings")).decodeWith
    GlobalSettings.from_json

/-- Embedding of `ZinvoltClient.get_custom_modes`:
`ORJSONDecoder(list[CustomMode])` decodes a bare JSON array in source order. -/
def get_custom_modes (st : ClientState) (transport : List HttpResponse)
    (battery_id : String) : OpResult (List CustomMode) :=
  (get_ st transport ("system/" ++ battery_id ++ "/custom-mode")).decodeWith
    (decodeArr CustomMode.from_json)

/-- Embedding of `ZinvoltClient.get_battery_unit`. -/
def get_battery_unit (st : ClientState) (transport : List HttpResponse)
    (battery_id battery_serial_number : String) : OpResult BatteryUnit :=
  (get_ st transport
      ("system/" ++ battery_id ++ "/unit/battery/" ++ battery_serial_number)).decodeWith
    BatteryUnit.from_json

/-- The polymorphic `smart_mode` argument of `set_smart_mode`: either a
`SmartMode` enum member or a plain string (`isinstance(smart_mode, SmartMode)`
distinguishes the two). -/
inductive SmartModeArg where
  | enumMode (m : SmartMode)
  | customId (s : String)
deriving DecidableEq, Repr

/-- Embedding of `ZinvoltClient.set_smart_mode`.  For an enum member the body
is `{"mode": <value>}`.  For a plain string the source executes
`data["custom_mode_id"] = smart_mode; data["mode"] = SmartMode.CUSTOM` —
but `SmartMode` declares no `CUSTOM` member, so the attribute access raises
`AttributeError` before any request is issued and before any state change. -/
def set_smart_mode (st : ClientState) (transport : List HttpResponse)
    (battery_id : String) (smart_mode : SmartModeArg) : OpResult Unit :=
  match smart_mode with
  | .enumMode m =>
      (put_ st transport ("system/" ++ battery_id ++ "/operation/switch-smart-mode")
          (.obj [("mode", .str m.toWire)])).decodeWith
        (fun _ => .ok ())
  | .customId s =>
      match SmartMode.getattr "CUSTOM" with
      | .ok mode =>
          (put_ st transport ("system/" ++ battery_id ++ "/operation/switch-smart-mode")
              (.obj [("custom_mode_id", .str s), ("mode", .str mode.toWire)])).decodeWith
            (fun _ => .ok ())
      | .error e => ⟨.error e, st, [], transport⟩

/-- Embedding of `ZinvoltClient.close`:
`if self.session and self._close_session: await self.session.close()`.
`ClientSession.close` on an already-closed session is a no-op and never
raises, so `close` is a total state transformer. -/
def close (st : ClientState) : ClientState :=
  match st.session with
  | some s => if st.close_session then { st with session := some { s with closed := true } } else st
  | none => st

/-! ## Global-settings setters (absent from `src/`, modelled from the spec)

`tests/test_zinvolt.py` exercises `set_max_output`, `set_lower_threshold`,
`set_upper_threshold` and `set_standby_time`, but `src/zinvolt/zinvolt.py`
does not define them; they are modelled from spec §4.2. -/

/-- Modelled from the spec: `set_max_output` is absent from
`src/zinvolt/zinvolt.py` (only its tests call it); per spec §4.2 it POSTs
`system/{battery_id}/configuration/global-settings` with the single-key body
`{"max_output": value}`. -/
def set_max_output (st : ClientState) (transport : List HttpResponse)
    (battery_id : String) (max_output : Int) : OpResult Unit :=
  (post_ st transport ("system/" ++ battery_id ++ "/configuration/global-settings")
      (.obj [("max_output", .num max_output)])).decodeWith
    (fun _ => .ok ())

/-- Modelled from the spec: `set_lower_threshold` is absent from
`src/zinvolt/zinvolt.py`; per spec §4.2 it POSTs the global-settings endpoint
with the single-key body `{"bat_use_cap": value}`. -/
def set_lower_threshold (st : ClientState) (transport : List HttpResponse)
    (battery_id : String) (lower_threshold : Int) : OpResult Unit :=
  (post_ st transport ("system/" ++ battery_id ++ "/configuration/global-settings")
      (.obj [("bat_use_cap", .num lower_threshold)])).decodeWith
    (fun _ => .ok ())

/-- Modelled from the spec: `set_upper_threshold` is absent from
`src/zinvolt/zinvolt.py`; per spec §4.2 it POSTs the global-settings endpoint
with the single-key body `{"max_charge_power": value}` (the vendor wire key
for the upper threshold). -/
def set_upper_threshold (st : ClientState) (transport : List HttpResponse)
    (battery_id : String) (upper_threshold : Int) : OpResult Unit :=
  (post_ st transport ("system/" ++ battery_id ++ "/configuration/global-settings")
      (.obj [("max_charge_power", .num upper_threshold)])).decodeWith
    (fun _ => .ok ())

/-- Modelled from the spec: `set_standby_time` is absent from
`src/zinvolt/zinvolt.py`; per spec §4.2 it POSTs the global-settings endpoint
with the single-key body `{"standby_time": value}`. -/
def set_standby_time (st : ClientState) (transport : List HttpResponse)
    (battery_id : String) (standby_time : Int) : OpResult Unit :=
  (post_ st transport ("system/" ++ battery_id ++ "/configuration/global-settings")
      (.obj [("standby_time", .num standby_time)])).decodeWith
    (fun _ => .ok ())

/-- Frame of one non-`login`, non-`close` operation on the client state:
`token` and `request_timeout` are untouched, and either the whole state is
untouched or (exactly when no session existed) a fresh client-owned session
was created and the ownership flag was set. -/
def frameOk (st st' : ClientState) : Prop :=
  st'.token = st.token ∧ st'.request_timeout = st.request_timeout ∧
    (st' = st ∨
      (st.session = none ∧
        st' = { st with session := some ⟨true, false⟩, close_session := true }))

/-- Ownership invariant of the client: the `_close_session` flag is set
exactly for a session the client itself created. -/
def ownershipInv (st : ClientState) : Prop :=
  ∀ s, st.session = some s → (st.close_session = true ↔ s.createdByClient = true)

/-! ## Shared lemmas about the request pipeline -/

theorem requestState_request_timeout (st : ClientState) :
    (requestState st).request_timeout = st.request_timeout := by
  unfold requestState; split <;> rfl

theorem request_nil (st : ClientState) (uri method : String) (data : Option Json)
    (headers : List (String × String)) :
    request_ st [] uri method data headers =
      ⟨.error .transportError, requestState st, [mkReq st uri method data headers], []⟩ :=
  rfl

theorem request_cons_ok (st : ClientState) (r : HttpResponse)
    (rest : List HttpResponse) (uri method : String) (data : Option Json)
    (headers : List (String × String))
    (h : ¬ st.request_timeout < r.headersTime) :
    request_ st (r :: rest) uri method data headers =
      ⟨.ok r.body, requestState st, [mkReq st uri method data headers], rest⟩ := by
  dsimp only [request_]
  rw [requestState_request_timeout, if_neg h]

theorem request_cons_timeout (st : ClientState) (r : HttpResponse)
    (rest : List HttpResponse) (uri method : String) (data : Option Json)
    (headers : List (String × String))
    (h : st.request_timeout < r.headersTime) :
    request_ st (r :: rest) uri method data headers =
      ⟨.error .timeoutError, requestState st, [mkReq st uri method data headers], rest⟩ := by
  dsimp only [request_]
  rw [requestState_request_timeout, if_pos h]

theorem request_state_eq (st : ClientState) (transport : List HttpResponse)
    (uri method : String) (data : Option Json)
    (headers : List (String × String)) :
    (request_ st transport uri method data headers).state = requestState st := by
  cases transport with
  | nil => rfl
  | cons r rest =>
      dsimp only [request_]
      split <;> rfl

theorem request_issued_eq (st : ClientState) (transport : List HttpResponse)
    (uri method : String) (data : Option Json)
    (headers : List (String × String)) :
    (request_ st transport uri method data headers).issued =
      [mkReq st uri method data headers] := by
  cases transport with
  | nil => rfl
  | cons r rest =>
      dsimp only [request_]
      split <;> rfl

theorem frameOk_requestState (st : ClientState) : frameOk st (requestState st) := by
  unfold frameOk requestState
  cases h : st.session with
  | none => simp [h]
  | some s => simp [h]

theorem ownershipInv_requestState (st : ClientState) (h : ownershipInv st) :
    ownershipInv (requestState st) := by
  unfold ownershipInv requestState at *
  cases hs : st.session with
  | none => simp [hs]
  | some s =>
      simp only [hs, Option.isNone_some, Bool.false_eq_true, if_false]
      exact fun s' hs' => h s' (hs ▸ hs')

theorem decodeList_ok_length {α : Type} (dec : Json → Except ZError α) :
    ∀ (xs : List Json) (l : List α), decodeList dec xs = .ok l → l.length = xs.length := by
  intro xs
  induction xs with
  | nil =>
      intro l h
      simp only [decodeList] at h
      cases h
      rfl
  | cons x xs ih =>
      intro l h
      simp only [decodeList] at h
      cases hx : dec x with
      | error e => rw [hx] at h; simp [bind, Except.bind] at h
      | ok a =>
          rw [hx] at h
          cases hxs : decodeList dec xs with
          | error e => rw [hxs] at h; simp [bind, Except.bind] at h
          | ok as =>
              rw [hxs] at h
              simp only [bind, Except.bind, Except.ok.injEq] at h
              cases h
              simp [ih as hxs]

theorem decodeList_ok_get {α : Type} (dec : Json → Except ZError α) :
    ∀ (xs : List Json) (l : List α), decodeList dec xs = .ok l →
      ∀ (i : Nat) (hi : i < xs.length) (hl : i < l.length),
        dec (xs.get ⟨i, hi⟩) = .ok (l.get ⟨i, hl⟩) := by
  intro xs
  induction xs with
  | nil =>
      intro l h i hi hl
      exact absurd hi (by simp)
  | cons x xs ih =>
      intro l h i hi hl
      simp only [decodeList] at h
      cases hx : dec x with
      | error e => rw [hx] at h; simp [bind, Except.bind] at h
      | ok a =>
          rw [hx] at h
          cases hxs : decodeList dec xs with
          | error e => rw [hxs] at h; simp [bind, Except.bind] at h
          | ok as =>
              rw [hxs] at h
              simp only [bind, Except.bind, Except.ok.injEq] at h
              cases h
              cases i with
              | zero => exact hx
              | succ n =>
                  exact ih as hxs n (Nat.lt_of_succ_lt_succ hi)
                    (Nat.lt_of_succ_lt_succ hl)

/-! ## Claims -/

/-- C1.  The claim states that for a non-enum string `s`,
`set_smart_mode(battery_id, s)` issues a PUT with body
`{"mode": "CUSTOM", "custom_mode_id": s}` — the behavior the repository's own
test `test_set_custom_smart_mode` expects.  The code cannot do this:
`SmartMode` declares no `CUSTOM` member, so the source line
`data["mode"] = SmartMode.CUSTOM` raises `AttributeError` before any request
is issued.  This theorem evaluates the code at the failing input
`set_smart_mode("123123", "EdxM2EsVNJVc6abhbVnbeby5bcq5EBXh")` (the test's
input): the outcome is the `AttributeError` and no request is put on the
wire, while the enum branch (for contrast) does issue its PUT. -/
theorem set_smart_mode_custom_attribute_error :
    (set_smart_mode (mkClient (some "token") true)
        [⟨200, 0, 0, .obj []⟩] "123123"
        (.customId "EdxM2EsVNJVc6abhbVnbeby5bcq5EBXh")).outcome =
      .error (.attributeError "CUSTOM") ∧
    (set_smart_mode (mkClient (some "token") true)
        [⟨200, 0, 0, .obj []⟩] "123123"
        (.customId "EdxM2EsVNJVc6abhbVnbeby5bcq5EBXh")).issued = [] ∧
    (set_smart_mode (mkClient (some "token") true)
        [⟨200, 0, 0, .obj []⟩] "123123"
        (.customId "EdxM2EsVNJVc6abhbVnbeby5bcq5EBXh")).state =
      mkClient (some "token") true ∧
    ((set_smart_mode (mkClient (some "token") true)
        [⟨200, 0, 0, .obj []⟩] "123123"
        (.enumMode .DYNAMIC)).issued.map
          (fun q => (q.method, q.url, q.body))) =
      [(METH_PUT, buildUrl "system/123123/operation/switch-smart-mode",
        some (.obj [("mode", .str "DYNAMIC")]))] := by
  refine ⟨rfl, rfl, rfl, rfl⟩

/-- C2.  The four global-settings setters (absent from `src/`, modelled from
spec §4.2) each issue a single POST to
`system/{battery_id}/configuration/global-settings` whose body is the
single-key JSON object with the corresponding wire key: `max_charge_power`
for `set_upper_threshold`, `max_output` for `set_max_output`, `bat_use_cap`
for `set_lower_threshold`, and `standby_time` for `set_standby_time`. -/
theorem global_settings_setters_spec (st : ClientState)
    (transport : List HttpResponse) (battery_id : String) (v : Int) :
    ((set_upper_threshold st transport battery_id v).issued.map
        (fun q => (q.method, q.url, q.body))) =
      [(METH_POST, buildUrl ("system/" ++ battery_id ++ "/configuration/global-settings"),
        some (.obj [("max_charge_power", .num v)]))] ∧
    ((set_max_output st transport battery_id v).issued.map
        (fun q => (q.method, q.url, q.body))) =
      [(METH_POST, buildUrl ("system/" ++ battery_id ++ "/configuration/global-settings"),
        some (.obj [("max_output", .num v)]))] ∧
    ((set_lower_threshold st transport battery_id v).issued.map
        (fun q => (q.method, q.url, q.body))) =
      [(METH_POST, buildUrl ("system/" ++ battery_id ++ "/configuration/global-settings"),
        some (.obj [("bat_use_cap", .num v)]))] ∧
    ((set_standby_time st transport battery_id v).issued.map
        (fun q => (q.method, q.url, q.body))) =
      [(METH_POST, buildUrl ("system/" ++ battery_id ++ "/configuration/global-settings"),
        some (.obj [("standby_time", .num v)]))] := by
  refine ⟨?_, ?_, ?_, ?_⟩ <;>
    simp [set_upper_threshold, set_max_output, set_lower_threshold,
      set_standby_time, post_, OpResult.decodeWith, request_issued_eq, mkReq]

/-- C3.  The claim states that `SmartMode` has exactly the members `DYNAMIC`,
`CHARGED`, `PERFORMANCE` and `CUSTOM` — as the spec's table and the
repository's own test of the custom branch require.  The source enum declares
only the first three: decoding the literal `"CUSTOM"` fails like any unknown
literal, and the attribute access `SmartMode.CUSTOM` performed by
`set_smart_mode` raises `AttributeError`.  This theorem evaluates the code at
the failing literal. -/
theorem smart_mode_members_eval :
    SmartMode.fromString "DYNAMIC" = some .DYNAMIC ∧
    SmartMode.fromString "CHARGED" = some .CHARGED ∧
    SmartMode.fromString "PERFORMANCE" = some .PERFORMANCE ∧
    SmartMode.fromString "CUSTOM" = none ∧
    SmartMode.getattr "CUSTOM" = .error (.attributeError "CUSTOM") ∧
    getSmartModeField (.obj [("smartMode", .str "CUSTOM")]) "smartMode" =
      .error (.decodeError "smartMode") ∧
    (∀ s : String, s ≠ "DYNAMIC" → s ≠ "CHARGED" → s ≠ "PERFORMANCE" →
      SmartMode.fromString s = none) := by
  refine ⟨rfl, rfl, rfl, rfl, rfl, rfl, ?_⟩
  intro s h1 h2 h3
  simp [SmartMode.fromString, h1, h2, h3]

theorem smart_mode_members_eval_witness :
    SmartMode.fromString "CUSTOM" = none :=
  smart_mode_members_eval.2.2.2.2.2.2 "CUSTOM" (by decide) (by decide) (by decide)

/-- C4.  `get_custom_modes` issues one GET to
`system/{battery_id}/custom-mode`, decodes the response body as a bare JSON
array, and returns the decoded records in source order (position `i` of the
result is the decode of position `i` of the array). -/
theorem get_custom_modes_spec (st : ClientState) (r : HttpResponse)
    (rest : List HttpResponse) (battery_id : String) (xs : List Json)
    (l : List CustomMode)
    (hbody : r.body = .arr xs)
    (ht : ¬ st.request_timeout < r.headersTime)
    (hdec : decodeList CustomMode.from_json xs = .ok l) :
    (get_custom_modes st (r :: rest) battery_id).outcome = .ok l ∧
    ((get_custom_modes st (r :: rest) battery_id).issued.map
        (fun q => (q.method, q.url, q.body))) =
      [(METH_GET, buildUrl ("system/" ++ battery_id ++ "/custom-mode"), none)] ∧
    l.length = xs.length ∧
    (∀ (i : Nat) (hi : i < xs.length) (hl : i < l.length),
      CustomMode.from_json (xs.get ⟨i, hi⟩) = .ok (l.get ⟨i, hl⟩)) := by
  have hreq := request_cons_ok st r rest ("system/" ++ battery_id ++ "/custom-mode")
    METH_GET none [] ht
  refine ⟨?_, ?_, decodeList_ok_length _ xs l hdec, decodeList_ok_get _ xs l hdec⟩
  · simp [get_custom_modes, get_, OpResult.decodeWith, hreq, hbody, decodeArr,
      hdec, Except.bind]
  · simp [get_custom_modes, get_, OpResult.decodeWith, hreq, mkReq]

theorem get_custom_modes_spec_witness :
    (get_custom_modes (mkClient (some "t") true)
        [⟨200, 0, 0, .arr [.obj [("id", .str "cm1"), ("name", .str "Night")],
          .obj [("id", .str "cm2"), ("name", .str "Day")]]⟩] "123123").outcome =
      .ok [⟨"cm1", "Night"⟩, ⟨"cm2", "Day"⟩] :=
  (get_custom_modes_spec (mkClient (some "t") true)
    ⟨200, 0, 0, .arr [.obj [("id", .str "cm1"), ("name", .str "Night")],
      .obj [("id", .str "cm2"), ("name", .str "Day")]]⟩ [] "123123"
    [.obj [("id", .str "cm1"), ("name", .str "Night")],
      .obj [("id", .str "cm2"), ("name", .str "Day")]]
    [⟨"cm1", "Night"⟩, ⟨"cm2", "Day"⟩] rfl (by decide) rfl).1

/-- C5.  No operation branches on the HTTP status code: replacing the status
of the pending response by any other value leaves every operation's result
(outcome, state and issued requests alike) unchanged; in particular a non-2xx
response with a well-formed expected JSON body still decodes and the call
succeeds (final conjunct: a status-500 online-status response). -/
theorem status_code_irrelevant (st : ClientState) (r : HttpResponse)
    (rest : List HttpResponse) (s : Nat)
    (email password battery_id battery_serial_number : String)
    (arg : SmartModeArg) :
    (login st ({r with status := s} :: rest) email password).visible =
      (login st (r :: rest) email password).visible ∧
    (get_batteries st ({r with status := s} :: rest)).visible =
      (get_batteries st (r :: rest)).visible ∧
    (get_battery_status st ({r with status := s} :: rest) battery_id).visible =
      (get_battery_status st (r :: rest) battery_id).visible ∧
    (is_battery_online st ({r with status := s} :: rest) battery_id).visible =
      (is_battery_online st (r :: rest) battery_id).visible ∧
    (get_photovoltaic_data st ({r with status := s} :: rest) battery_id).visible =
      (get_photovoltaic_data st (r :: rest) battery_id).visible ∧
    (get_global_settings st ({r with status := s} :: rest) battery_id).visible =
      (get_global_settings st (r :: rest) battery_id).visible ∧
    (get_custom_modes st ({r with status := s} :: rest) battery_id).visible =
      (get_custom_modes st (r :: rest) battery_id).visible ∧
    (get_battery_unit st ({r with status := s} :: rest) battery_id
        battery_serial_number).visible =
      (get_battery_unit st (r :: rest) battery_id battery_serial_number).visible ∧
    (set_smart_mode st ({r with status := s} :: rest) battery_id arg).visible =
      (set_smart_mode st (r :: rest) battery_id arg).visible ∧
    (is_battery_online (mkClient (some "t") true)
        [⟨500, 0, 0, .obj [("sn", .str "sn1"), ("onlineStatus", .str "ONLINE")]⟩]
        "123123").outcome = .ok true := by
  refine ⟨rfl, rfl, rfl, rfl, rfl, rfl, rfl, rfl, ?_, rfl⟩
  cases arg <;> rfl

theorem request_decode_timeout {α : Type} (st : ClientState) (r : HttpResponse)
    (rest : List HttpResponse) (uri method : String) (data : Option Json)
    (headers : List (String × String)) (f : Json → Except ZError α)
    (ht : st.request_timeout < r.headersTime) :
    ((request_ st (r :: rest) uri method data headers).decodeWith f).outcome =
      .error .timeoutError ∧
    ((request_ st (r :: rest) uri method data headers).decodeWith f).issued.length = 1 := by
  rw [request_cons_timeout st r rest uri method data headers ht]
  exact ⟨rfl, rfl⟩

/-- C6 (amended).  Every operation's request is wrapped in a timeout scope
that covers the `session.request` await (up to receipt of the response
headers, not the reading of the body text): if the configured timeout
(default 10, last conjunct) elapses before the response headers arrive, the
call fails with a timeout error, and exactly one request was issued — no
retry. -/
theorem timeout_spec_amended (st : ClientState) (r : HttpResponse)
    (rest : List HttpResponse)
    (email password battery_id battery_serial_number : String) (m : SmartMode)
    (ht : st.request_timeout < r.headersTime) :
    ((login st (r :: rest) email password).outcome = .error .timeoutError ∧
      (login st (r :: rest) email password).issued.length = 1) ∧
    ((get_batteries st (r :: rest)).outcome = .error .timeoutError ∧
      (get_batteries st (r :: rest)).issued.length = 1) ∧
    ((get_battery_status st (r :: rest) battery_id).outcome = .error .timeoutError ∧
      (get_battery_status st (r :: rest) battery_id).issued.length = 1) ∧
    ((is_battery_online st (r :: rest) battery_id).outcome = .error .timeoutError ∧
      (is_battery_online st (r :: rest) battery_id).issued.length = 1) ∧
    ((get_photovoltaic_data st (r :: rest) battery_id).outcome = .error .timeoutError ∧
      (get_photovoltaic_data st (r :: rest) battery_id).issued.length = 1) ∧
    ((get_global_settings st (r :: rest) battery_id).outcome = .error .timeoutError ∧
      (get_global_settings st (r :: rest) battery_id).issued.length = 1) ∧
    ((get_custom_modes st (r :: rest) battery_id).outcome = .error .timeoutError ∧
      (get_custom_modes st (r :: rest) battery_id).issued.length = 1) ∧
    ((get_battery_unit st (r :: rest) battery_id battery_serial_number).outcome =
        .error .timeoutError ∧
      (get_battery_unit st (r :: rest) battery_id battery_serial_number).issued.length = 1) ∧
    ((set_smart_mode st (r :: rest) battery_id (.enumMode m)).outcome =
        .error .timeoutError ∧
      (set_smart_mode st (r :: rest) battery_id (.enumMode m)).issued.length = 1) ∧
    (mkClient none false).request_timeout = 10 := by
  refine ⟨?_, ?_, ?_, ?_, ?_, ?_, ?_, ?_, ?_, rfl⟩
  · constructor <;>
      simp [login, post_, request_cons_timeout st r rest "login" METH_POST _ [] ht]
  · exact request_decode_timeout st r rest _ _ _ _ _ ht
  · exact request_decode_timeout st r rest _ _ _ _ _ ht
  · exact request_decode_timeout st r rest _ _ _ _ _ ht
  · exact request_decode_timeout st r rest _ _ _ _ _ ht
  · exact request_decode_timeout st r rest _ _ _ _ _ ht
  · exact request_decode_timeout st r rest _ _ _ _ _ ht
  · exact request_decode_timeout st r rest _ _ _ _ _ ht
  · exact request_decode_timeout st r rest _ _ _ _ _ ht

theorem timeout_spec_amended_witness :
    (get_batteries (mkClient none false) [⟨200, 11, 0, .obj []⟩]).outcome =
      .error .timeoutError :=
  ((timeout_spec_amended (mkClient none false) ⟨200, 11, 0, .obj []⟩ []
    "e" "p" "b" "s" .DYNAMIC (by decide)).2.1).1

/-- C6 (counterexample).  The claim states that the timeout scope covers the
operation up to completion of the response; in the source the
`asyncio.timeout` scope ends when `session.request` returns, before
`response.text()` is awaited.  A response whose headers arrive immediately
but whose body takes 1000 time units (so the default timeout of 10 elapses
long before the response completes) still succeeds instead of failing with a
timeout error. -/
theorem timeout_scope_counterexample :
    (mkClient (some "t") true).request_timeout = 10 ∧
    10 < (0 : Nat) + 1000 ∧
    (is_battery_online (mkClient (some "t") true)
        [⟨200, 0, 1000, .obj [("sn", .str "sn1"), ("onlineStatus", .str "ONLINE")]⟩]
        "123123").outcome = .ok true ∧
    (is_battery_online (mkClient (some "t") true)
        [⟨200, 0, 1000, .obj [("sn", .str "sn1"), ("onlineStatus", .str "ONLINE")]⟩]
        "123123").outcome ≠ .error .timeoutError := by
  refine ⟨rfl, by decide, rfl, ?_⟩
  intro h
  exact Except.noConfusion h

theorem mergeDicts_nil (base : List (String × String)) :
    mergeDicts base [] = base := by
  simp [mergeDicts]

/-- C7 (counterexample).  The claim promises that after `login` every
subsequent call carries `Authorization: Bearer {token}` for the stored
token.  The source attaches the header under `if self.token:`, a Python
truthiness test, so when the server returns `{"token": ""}` the empty token
is stored and returned, yet the next request carries no `Authorization`
header at all. -/
theorem login_empty_token_counterexample :
    (login (mkClient none false) [⟨200, 0, 0, .obj [("token", .str "")]⟩]
        "test@test.com" "abc").outcome = .ok "" ∧
    (login (mkClient none false) [⟨200, 0, 0, .obj [("token", .str "")]⟩]
        "test@test.com" "abc").state.token = some "" ∧
    ((request_ (login (mkClient none false)
          [⟨200, 0, 0, .obj [("token", .str "")]⟩] "test@test.com" "abc").state
        [] "system/batteries" METH_GET none []).issued.map
          (fun q => q.headers)) = [[("User-Agent", "python-zinvolt/1")]] ∧
    ("Authorization", "Bearer " ++ "") ∉ [("User-Agent", "python-zinvolt/1")] := by
  refine ⟨rfl, rfl, rfl, by decide⟩

/-- C7 (amended).  For every email and password, `login` without a prior
token issues exactly one POST to the login endpoint with JSON body
`{"email": email, "password": password}` and no `Authorization` header; it
extracts the `"token"` field of the JSON response, stores it, and returns
it; and — provided the extracted token is non-empty (the source attaches the
header under the truthiness test `if self.token:`) — every subsequent
request carries the header `Authorization: Bearer {token}`. -/
theorem login_spec_amended (hasSession : Bool) (r : HttpResponse)
    (rest : List HttpResponse) (email password t : String)
    (kvs : List (String × Json))
    (hbody : r.body = .obj kvs)
    (htok : lookupKey kvs "token" = some (.str t))
    (ht : ¬ (10 : Nat) < r.headersTime)
    (hne : t ≠ "") :
    ((login (mkClient none hasSession) (r :: rest) email password).issued.map
        (fun q => (q.method, q.url, q.body, q.headers))) =
      [(METH_POST, buildUrl "login",
        some (.obj [("email", .str email), ("password", .str password)]),
        [("User-Agent", "python-zinvolt/1")])] ∧
    (login (mkClient none hasSession) (r :: rest) email password).outcome = .ok t ∧
    (login (mkClient none hasSession) (r :: rest) email password).state.token =
      some t ∧
    (∀ (tr2 : List HttpResponse) (uri method : String) (data : Option Json),
      (request_ (login (mkClient none hasSession) (r :: rest) email password).state
          tr2 uri method data []).issued =
        [mkReq (login (mkClient none hasSession) (r :: rest) email password).state
          uri method data []] ∧
      ("Authorization", "Bearer " ++ t) ∈
        (mkReq (login (mkClient none hasSession) (r :: rest) email password).state
          uri method data []).headers) := by
  have hreq := request_cons_ok (mkClient none hasSession) r rest "login" METH_POST
    (some (.obj [("email", .str email), ("password", .str password)])) [] ht
  have hlogin : login (mkClient none hasSession) (r :: rest) email password =
      ⟨.ok t, { requestState (mkClient none hasSession) with token := some t },
        [mkReq (mkClient none hasSession) "login" METH_POST
          (some (.obj [("email", .str email), ("password", .str password)])) []],
        rest⟩ := by
    simp only [login, post_, hreq, hbody, htok]
  rw [hlogin]
  refine ⟨?_, rfl, rfl, ?_⟩
  · simp [mkReq, mergeDicts_nil, baseHeaders, authHeaders, mkClient, VERSION,
      buildUrl]
  · intro tr2 uri method data
    refine ⟨request_issued_eq _ tr2 uri method data [], ?_⟩
    simp [mkReq, mergeDicts_nil, baseHeaders, authHeaders, hne]

theorem login_spec_amended_witness :
    (login (mkClient none false) [⟨200, 0, 0, .obj [("token", .str "T")]⟩]
        "test@test.com" "abc").outcome = .ok "T" :=
  (login_spec_amended false ⟨200, 0, 0, .obj [("token", .str "T")]⟩ []
    "test@test.com" "abc" "T" [("token", .str "T")] rfl rfl (by decide)
    (by decide)).2.1

/-- C8.  `is_battery_online` issues one GET to
`system/{battery_id}/basic/online-status`; on a response whose decoded
`onlineStatus` literal is `"ONLINE"` it returns `true`, on `"OFFLINE"` it
returns `false`, and on any other literal the decode fails (no default
substitution). -/
theorem is_battery_online_spec (st : ClientState) (r : HttpResponse)
    (rest : List HttpResponse) (battery_id sn lit : String)
    (hbody : r.body = .obj [("sn", .str sn), ("onlineStatus", .str lit)])
    (ht : ¬ st.request_timeout < r.headersTime) :
    (lit = "ONLINE" →
      (is_battery_online st (r :: rest) battery_id).outcome = .ok true) ∧
    (lit = "OFFLINE" →
      (is_battery_online st (r :: rest) battery_id).outcome = .ok false) ∧
    (lit ≠ "ONLINE" → lit ≠ "OFFLINE" →
      (is_battery_online st (r :: rest) battery_id).outcome =
        .error (.decodeError "onlineStatus")) ∧
    ((is_battery_online st (r :: rest) battery_id).issued.map
        (fun q => (q.method, q.url, q.body))) =
      [(METH_GET, buildUrl ("system/" ++ battery_id ++ "/basic/online-status"),
        none)] := by
  have hreq := request_cons_ok st r rest
    ("system/" ++ battery_id ++ "/basic/online-status") METH_GET none [] ht
  refine ⟨?_, ?_, ?_, ?_⟩
  · intro h
    subst h
    simp [is_battery_online, get_, OpResult.decodeWith, hreq, hbody, bind, Except.bind,
      pure, Except.pure, OnlineStatusResponse.from_json, getStrField,
      getOnlineStatusField, OnlineStatus.fromString, lookupKey, Except.map]
  · intro h
    subst h
    simp [is_battery_online, get_, OpResult.decodeWith, hreq, hbody, bind, Except.bind,
      pure, Except.pure, OnlineStatusResponse.from_json, getStrField,
      getOnlineStatusField, OnlineStatus.fromString, lookupKey, Except.map]
  · intro h1 h2
    simp [is_battery_online, get_, OpResult.decodeWith, hreq, hbody, bind, Except.bind,
      pure, Except.pure, OnlineStatusResponse.from_json, getStrField,
      getOnlineStatusField, OnlineStatus.fromString, lookupKey, Except.map,
      h1, h2]
  · simp [is_battery_online, get_, OpResult.decodeWith, hreq, mkReq]

theorem is_battery_online_spec_witness :
    (is_battery_online (mkClient (some "t") true)
        [⟨200, 0, 0, .obj [("sn", .str "sn1"), ("onlineStatus", .str "ONLINE")]⟩]
        "123123").outcome = .ok true :=
  (is_battery_online_spec (mkClient (some "t") true)
    ⟨200, 0, 0, .obj [("sn", .str "sn1"), ("onlineStatus", .str "ONLINE")]⟩ []
    "123123" "sn1" "ONLINE" rfl (by decide)).1 rfl

/-- C9.  `close` releases the session iff the client itself created it.
Under the ownership invariant (established at construction and preserved by
the request pipeline): a caller-supplied session is never closed (the call
is a strict no-op), a client-created session is closed, a second call
changes nothing (and `close` is a total state transformer, so it cannot
raise), and `close` leaves token, timeout and ownership flag intact. -/
theorem close_spec (st : ClientState) (hinv : ownershipInv st) :
    (∀ (tok : Option String) (hs : Bool), ownershipInv (mkClient tok hs)) ∧
    (∀ s, st.session = some s → s.createdByClient = false → close st = st) ∧
    (∀ s, st.session = some s → s.createdByClient = true →
      (close st).session = some ⟨true, true⟩) ∧
    close (close st) = close st ∧
    (close st).token = st.token ∧
    (close st).request_timeout = st.request_timeout ∧
    (close st).close_session = st.close_session := by
  refine ⟨?_, ?_, ?_, ?_, ?_, ?_, ?_⟩
  · intro tok hs s hsession
    cases hs with
    | false => exact absurd hsession (by simp [mkClient])
    | true =>
        simp only [mkClient, if_pos] at hsession
        injection hsession with h
        subst h
        simp [mkClient]
  · intro s hs hcb
    have hcs : st.close_session = false := by
      rcases Bool.eq_false_or_eq_true st.close_session with h | h
      · exact absurd ((hinv s hs).mp h) (by simp [hcb])
      · exact h
    simp [close, hs, hcs]
  · intro s hs hcb
    have hcs : st.close_session = true := (hinv s hs).mpr hcb
    simp [close, hs, hcs, hcb]
  · cases hs : st.session with
    | none => simp [close, hs]
    | some s =>
        by_cases hc : st.close_session
        · simp [close, hs, hc]
        · simp [close, hs, hc]
  · cases hs : st.session with
    | none => simp [close, hs]
    | some s => by_cases hc : st.close_session <;> simp [close, hs, hc]
  · cases hs : st.session with
    | none => simp [close, hs]
    | some s => by_cases hc : st.close_session <;> simp [close, hs, hc]
  · cases hs : st.session with
    | none => simp [close, hs]
    | some s => by_cases hc : st.close_session <;> simp [close, hs, hc]

theorem close_spec_witness :
    close (mkClient none true) = mkClient none true :=
  (close_spec (mkClient none true) (fun s hs => by
      simp only [mkClient, if_pos] at hs
      injection hs with h
      subst h
      simp [mkClient])).2.1 ⟨false, false⟩ rfl rfl

/-- C10 (counterexample).  The claim states that for public operations other
than `login` and `close` the session-ownership flag is unchanged.  But
`_request` sets `_close_session = True` whenever it creates the missing
session: calling `get_batteries` on a freshly constructed client without a
session flips the flag from `False` to `True`. -/
theorem ownership_flag_counterexample :
    (mkClient none false).close_session = false ∧
    (get_batteries (mkClient none false) []).state.close_session = true ∧
    (get_batteries (mkClient none false) []).state.close_session ≠
      (mkClient none false).close_session := by
  refine ⟨rfl, rfl, by decide⟩

theorem decode_request_state {α : Type} (st : ClientState)
    (transport : List HttpResponse) (uri method : String) (data : Option Json)
    (headers : List (String × String)) (f : Json → Except ZError α) :
    ((request_ st transport uri method data headers).decodeWith f).state =
      requestState st := by
  simp [OpResult.decodeWith, request_state_eq]

/-- C10 (amended).  For every public operation other than `login` and
`close`: `token` and `request_timeout` are unchanged, and either the whole
client state is unchanged, or — exactly when no session existed — the
session field changes from `None` to a freshly created client-owned session
and, with it, the ownership flag changes from `False` to `True` (`frameOk`).
`close` also leaves the token and the timeout unchanged, so `login` remains
the only operation that ever writes the token field. -/
theorem client_frame_amended (st : ClientState) (transport : List HttpResponse)
    (battery_id battery_serial_number : String) (arg : SmartModeArg) :
    frameOk st ((get_batteries st transport).state) ∧
    frameOk st ((get_battery_status st transport battery_id).state) ∧
    frameOk st ((is_battery_online st transport battery_id).state) ∧
    frameOk st ((get_photovoltaic_data st transport battery_id).state) ∧
    frameOk st ((get_global_settings st transport battery_id).state) ∧
    frameOk st ((get_custom_modes st transport battery_id).state) ∧
    frameOk st ((get_battery_unit st transport battery_id
      battery_serial_number).state) ∧
    frameOk st ((set_smart_mode st transport battery_id arg).state) ∧
    (close st).token = st.token ∧
    (close st).request_timeout = st.request_timeout := by
  have hfr := frameOk_requestState st
  refine ⟨?_, ?_, ?_, ?_, ?_, ?_, ?_, ?_, ?_, ?_⟩
  · rw [show (get_batteries st transport).state = requestState st from
      decode_request_state st transport _ _ _ _ _]
    exact hfr
  · rw [show (get_battery_status st transport battery_id).state = requestState st from
      decode_request_state st transport _ _ _ _ _]
    exact hfr
  · rw [show (is_battery_online st transport battery_id).state = requestState st from
      decode_request_state st transport _ _ _ _ _]
    exact hfr
  · rw [show (get_photovoltaic_data st transport battery_id).state = requestState st from
      decode_request_state st transport _ _ _ _ _]
    exact hfr
  · rw [show (get_global_settings st transport battery_id).state = requestState st from
      decode_request_state st transport _ _ _ _ _]
    exact hfr
  · rw [show (get_custom_modes st transport battery_id).state = requestState st from
      decode_request_state st transport _ _ _ _ _]
    exact hfr
  · rw [show (get_battery_unit st transport battery_id
        battery_serial_number).state = requestState st from
      decode_request_state st transport _ _ _ _ _]
    exact hfr
  · cases arg with
    | enumMode m =>
        rw [show (set_smart_mode st transport battery_id (.enumMode m)).state =
            requestState st from decode_request_state st transport _ _ _ _ _]
        exact hfr
    | customId s => exact ⟨rfl, rfl, Or.inl rfl⟩
  · cases hs : st.session with
    | none => simp [close, hs]
    | some s => by_cases hc : st.close_session <;> simp [close, hs, hc]
  · cases hs : st.session with
    | none => simp [close, hs]
    | some s => by_cases hc : st.close_session <;> simp [close, hs, hc]

end Zinvolt
